import Mathlib

/-!
Verification of the QPIP plugin (opengisch/qpip), a QGIS plugin that detects,
reports and resolves missing or conflicting Python package dependencies of
other QGIS plugins.

Shallow embedding of the relevant code:
* `a00_qpip/utils.py` : the `Req` and `Lib` records and `run_cmd`;
* `a00_qpip/plugin.py`: `Plugin.check_deps`, `Plugin.patched_load_plugin`,
  `Plugin.initComplete`, `Plugin.promt_install`, `Plugin.pip_install_reqs`,
  `Plugin.pip_uninstall_reqs`, `Plugin.start_packages`, `Plugin.__init__`,
  `Plugin.unload`, `Plugin._check_on_startup`, `Plugin._check_on_install`;
* `a00_qpip/ui.py`    : `MainDialog._default_all` and the `reqs_to_install`
  and `reqs_to_uninstall` properties.

External collaborators (the `pkg_resources` resolver, the filesystem, the
subprocess runner, Qt) are modelled as explicit parameters: the environment
supplies, for each requirement line, the outcome of
`pkg_resources.WorkingSet().require(...)`, and, for each plugin, the parsed
content of its `requirements.txt` (or `none` when the file is absent).
-/

namespace QPIP

/-- Outcome of `working_set.require(str(requirement))`: either it succeeds, or
it raises one of the two exception types caught in `Plugin.check_deps`
(`pkg_resources.DistributionNotFound` / `pkg_resources.VersionConflict`). -/
inductive ResolveResult
  | ok
  | distributionNotFound
  | versionConflict
deriving DecidableEq

/-- The two resolution error types recorded on a `Req`
(`utils.Req.error : Union[None, ResolutionError]`). -/
inductive ResolutionError
  | distributionNotFound
  | versionConflict
deriving DecidableEq

/-- One parsed requirement from a plugin's `requirements.txt`
(`pkg_resources.parse_requirements` output): its project key
(`requirement.key`) and its full line (`str(requirement)`). -/
structure Requirement where
  key : String
  line : String
deriving DecidableEq

/-- `utils.Req`: one requirement of one plugin, with the resolution error
recorded (or `none` if the requirement was satisfied). -/
structure Req where
  plugin : String
  requirement : String
  error : Option ResolutionError
deriving DecidableEq

/-- An installed distribution, as seen through `importlib.metadata`:
its `Name` metadata, its version, and `os.path.dirname(str(dist._path))`. -/
structure Dist where
  name : String
  version : String
  dirPath : String
deriving DecidableEq

/-- `utils.Lib`: an entry of the `libs` dictionary built by `check_deps`.
The Python default constructor (`defaultdict(Lib)`) sets
`required_by = []`, `installed_dist = None`, `qpip = True`; the `name`
field is always overwritten right after the entry is created. -/
structure Lib where
  name : String
  required_by : List Req
  installed_dist : Option Dist
  qpip : Bool
deriving DecidableEq

/-- The fresh `Lib()` produced by the `defaultdict` factory. -/
def Lib.default : Lib :=
  { name := "", required_by := [], installed_dist := none, qpip := true }

/-- Lookup in the insertion-ordered `libs` dictionary; a missing key yields
the `defaultdict` factory value. -/
def getLib : List (String × Lib) → String → Lib
  | [], _ => Lib.default
  | (k', l) :: rest, k => if k' = k then l else getLib rest k

/-- Store into the insertion-ordered `libs` dictionary: an existing key is
updated in place, a new key is appended (Python dicts preserve insertion
order). -/
def setLib : List (String × Lib) → String → Lib → List (String × Lib)
  | [], k, l => [(k, l)]
  | (k', l') :: rest, k, l =>
      if k' = k then (k, l) :: rest else (k', l') :: setLib rest k l

/-- Environment of `Plugin.check_deps`: the currently active plugins
(`qgis.utils.active_plugins`), the parsed `requirements.txt` of each plugin
directory under `plugins_path` (`none` when `os.path.isfile` is false), the
resolver (`working_set.require` keyed by the requirement line), the installed
distributions (`metadata.distributions()`), and the plugin's
`site_packages_path`. -/
structure CheckEnv where
  activePlugins : List String
  reqFiles : String → Option (List Requirement)
  require : String → ResolveResult
  dists : List Dist
  sitePackagesPath : String

/-- The body of the `for dist in metadata.distributions()` loop in
`check_deps`: record the dist on its lib and clear the `qpip` flag when the
distribution does not live in the plugin-managed site-packages directory. -/
def registerDist (sitePackages : String) (libs : List (String × Lib)) (d : Dist) :
    List (String × Lib) :=
  let l := getLib libs d.name
  let l := { l with name := d.name, installed_dist := some d }
  let l := if d.dirPath ≠ sitePackages then { l with qpip := false } else l
  setLib libs d.name l

/-- The body of the `for requirement in requirements` loop in `check_deps`:
try to resolve the requirement (the `try/except` records an error and raises
the `needs_gui` flag on `VersionConflict` / `DistributionNotFound`), then
append the resulting `Req` to the lib keyed by `requirement.key`. -/
def processRequirement (env : CheckEnv) (pluginName : String)
    (acc : List (String × Lib) × Bool) (r : Requirement) :
    List (String × Lib) × Bool :=
  let (libs, needsGui) := acc
  let (error, needsGui) :=
    match env.require r.line with
    | .ok => (none, needsGui)
    | .distributionNotFound => (some ResolutionError.distributionNotFound, true)
    | .versionConflict => (some ResolutionError.versionConflict, true)
  let req : Req := { plugin := pluginName, requirement := r.line, error := error }
  let l := getLib libs r.key
  let l := { l with name := r.key, required_by := l.required_by ++ [req] }
  (setLib libs r.key l, needsGui)

/-- The body of the `for plugin_name in plugin_names` loop in `check_deps`:
when `requirements.txt` exists, parse it and process each requirement;
otherwise the plugin contributes nothing. -/
def processPlugin (env : CheckEnv) (acc : List (String × Lib) × Bool)
    (pluginName : String) : List (String × Lib) × Bool :=
  match env.reqFiles pluginName with
  | none => acc
  | some lines => lines.foldl (processRequirement env pluginName) acc

/-- `Plugin.check_deps`: builds the `libs` dictionary from the installed
distributions and the requirements of `active_plugins + additional_plugins`,
and returns the dialog's library list (`libs.values()`) together with the
`needs_gui` flag. -/
def check_deps (env : CheckEnv) (additionalPlugins : List String) :
    List Lib × Bool :=
  let pluginNames := env.activePlugins ++ additionalPlugins
  let libs0 := env.dists.foldl (registerDist env.sitePackagesPath) []
  let r := pluginNames.foldl (processPlugin env) (libs0, false)
  (r.1.map Prod.snd, r.2)

/-! ## The `MainDialog` action combos (`a00_qpip/ui.py`) -/

/-- The data attached to an action-combo item (`QComboBox.addItem` with item
data): either an install of a requirement line or an uninstall of a library
name.  The first item, "Do nothing", carries no data (`none`). -/
inductive ActionData
  | install (requirement : String)
  | uninstall (name : String)
deriving DecidableEq

/-- The items of a lib's action combo in the order `MainDialog.__init__`
adds them: "Do nothing" first, then one install item per `required_by`
entry, then an uninstall item when an installed distribution exists. -/
def comboItems (l : Lib) : List (Option ActionData) :=
  none :: (l.required_by.map fun r => some (ActionData.install r.requirement))
    ++ (if l.installed_dist.isSome then [some (ActionData.uninstall l.name)] else [])

/-- `MainDialog._default_all`: the combo index preselected for a lib.  Index 1
(the first install item) is chosen exactly for a qpip-managed lib required by
exactly one requirement whose requirement carries an error and that has no
installed distribution; every other lib stays at index 0 ("Do nothing"). -/
def defaultIndex (l : Lib) : Nat :=
  if l.qpip ∧ l.required_by.length = 1 ∧
      (match l.required_by with
        | r :: _ => r.error.isSome
        | [] => false) = true ∧
      l.installed_dist = none
  then 1 else 0

/-- `QComboBox.currentData()` for a given selected index. -/
def currentData (l : Lib) (idx : Nat) : Option ActionData :=
  (comboItems l).getD idx none

/-- `MainDialog._selected_actions("install")` collected into
`reqs_to_install`, for a given per-lib selection. -/
def reqsToInstall (libs : List Lib) (sel : Lib → Nat) : List String :=
  libs.filterMap fun l =>
    match currentData l (sel l) with
    | some (ActionData.install s) => some s
    | _ => none

/-- `MainDialog._selected_actions("uninstall")` collected into
`reqs_to_uninstall`, for a given per-lib selection. -/
def reqsToUninstall (libs : List Lib) (sel : Lib → Nat) : List String :=
  libs.filterMap fun l =>
    match currentData l (sel l) with
    | some (ActionData.uninstall s) => some s
    | _ => none

/-! ## Lifecycle: `patched_load_plugin`, `initComplete`, `start_packages` -/

/-- Observable effects of the lifecycle code, in program order:
calls of the saved original `qgis.utils.loadPlugin`, of `check_deps` (with
its `additional_plugins` argument), of `promt_install`, of `save_settings`,
of `qgis.utils.startPlugin`, and the two `QgsSettings` writes done for a
successfully started plugin. -/
inductive Event
  | loadOriginal (packageName : String)
  | checkDeps (additionalPlugins : List String)
  | promptInstall
  | saveSettings
  | startPlugin (packageName : String)
  | setPluginEnabled (packageName : String)
  | removeWatchdog (packageName : String)
deriving DecidableEq

/-- Environment of the lifecycle code: whether the main window is visible
(`Plugin._is_qgis_loaded`), the two check settings, the results of the
original `loadPlugin` and of `startPlugin`, and the `needs_gui` flag that
`check_deps` returns for a given `additional_plugins` list. -/
structure LifecycleEnv where
  guiLoaded : Bool
  checkOnStartup : Bool
  checkOnInstall : Bool
  loadResult : String → Bool
  startResult : String → Bool
  needsGui : List String → Bool

/-- `Plugin.start_packages`: for each package, call the original
`loadPlugin`; on success call `startPlugin`, and on success of that record
the plugin as enabled and clear its watchdog entry. -/
def start_packages (env : LifecycleEnv) : List String → List Event
  | [] => []
  | n :: rest =>
      (Event.loadOriginal n ::
        (if env.loadResult n then
          Event.startPlugin n ::
            (if env.startResult n then
              [Event.setPluginEnabled n, Event.removeWatchdog n]
            else [])
        else []))
      ++ start_packages env rest

/-- The `check_deps` / `promt_install` / `save_settings` / `start_packages`
sequence shared by `patched_load_plugin` (GUI-ready branch) and
`initComplete`. -/
def checkAndStart (env : LifecycleEnv) (packages : List String) : List Event :=
  Event.checkDeps packages ::
    (if env.needsGui packages then [Event.promptInstall] else [])
    ++ Event.saveSettings :: start_packages env packages

/-- `Plugin.patched_load_plugin` (the function installed over
`qgis.utils.loadPlugin`).  Returns the updated `_defered_packages` list, the
emitted events, and the boolean returned to the host. -/
def patched_load_plugin (env : LifecycleEnv) (deferredPackages : List String)
    (packageName : String) : List String × List Event × Bool :=
  if ¬ env.guiLoaded then
    if ¬ env.checkOnStartup then
      (deferredPackages, [Event.loadOriginal packageName], env.loadResult packageName)
    else
      (deferredPackages ++ [packageName], [], false)
  else
    if ¬ env.checkOnInstall then
      (deferredPackages, [Event.loadOriginal packageName], env.loadResult packageName)
    else
      (deferredPackages, checkAndStart env [packageName], true)

/-- `Plugin.initComplete` (connected to `iface.initializationCompleted`):
when deferred packages exist, run the check/prompt/save/start sequence on
them; in all cases the deferred list is reset to empty. -/
def initComplete (env : LifecycleEnv) (deferredPackages : List String) :
    List String × List Event :=
  if deferredPackages ≠ [] then
    ([], checkAndStart env deferredPackages)
  else
    ([], [])

/-! ## pip commands and `promt_install` (`a00_qpip/plugin.py`) -/

/-- Observable filesystem / process effects of the pip helpers. -/
inductive SysAction
  | makedirs (path : String)
  | runCmd (args : List String) (description : String)
deriving DecidableEq

/-- `os.path.join(a, b)` for a relative `b` on the POSIX separator "/": when
`a` is empty or already ends with the separator the parts are concatenated
directly, otherwise a separator is inserted.  The trailing-separator test is
expressed on the character list of `a`. -/
def ospJoin (a b : String) : String :=
  if a.data.getLast? = some '/' ∨ a = "" then a ++ b else a ++ "/" ++ b

/-- `Plugin.__init__`'s `prefix_path`:
`os.path.join(QgsApplication.qgisSettingsDirPath(), "python", "dependencies")`. -/
def prefix_path (settingsDir : String) : String :=
  ospJoin (ospJoin settingsDir "python") "dependencies"

/-- `Plugin.pip_uninstall_reqs`: one pip uninstall command. -/
def pip_uninstall_reqs (pythonCommand : String) (reqsToUninstall : List String) :
    List SysAction :=
  [SysAction.runCmd
    ([pythonCommand, "-um", "pip", "uninstall", "-y"] ++ reqsToUninstall)
    ("uninstalling " ++ toString reqsToUninstall.length ++ " requirements")]

/-- `Plugin.pip_install_reqs`: create the prefix directory
(`os.makedirs(..., exist_ok=True)`), then run pip install with `--target`
pointing at the prefix directory. -/
def pip_install_reqs (pythonCommand prefixPath : String)
    (reqsToInstall : List String) : List SysAction :=
  [SysAction.makedirs prefixPath,
   SysAction.runCmd
     ([pythonCommand, "-um", "pip", "install"] ++ reqsToInstall
       ++ ["--target", prefixPath])
     ("installing " ++ toString reqsToInstall.length ++ " requirements")]

/-- `Plugin.promt_install`: when the dialog is accepted (`dialog.exec_()`
truthy), run the uninstalls (if any were selected) and then the installs (if
any were selected); when rejected, do nothing. -/
def promt_install (accepted : Bool) (selUninstall selInstall : List String)
    (pythonCommand prefixPath : String) : List SysAction :=
  if accepted then
    (if selUninstall ≠ [] then pip_uninstall_reqs pythonCommand selUninstall else [])
    ++ (if selInstall ≠ [] then pip_install_reqs pythonCommand prefixPath selInstall else [])
  else []

/-! ## `run_cmd` outcome (`a00_qpip/utils.py`) -/

/-- What `run_cmd` does after the subprocess loop terminates: either the
failure branch (a warning log plus a message box whose detailed text is the
accumulated output) or the success branch (a log plus a message-bar entry). -/
inductive CmdOutcome
  | failure (warnMessage : String) (title : String) (detailedText : String)
  | success (logMessage : String) (barMessage : String)
deriving DecidableEq

/-- Python `str.capitalize`: first character uppercased, the rest
lowercased. -/
def pyCapitalize (s : String) : String :=
  match s.data with
  | [] => ""
  | c :: rest => String.mk (c.toUpper :: rest.map Char.toLower)

/-- The accumulated `full_output` of `run_cmd`'s read loop: the concatenation
of the decoded, stripped output chunks, in order. -/
def fullOutput (chunks : List String) : String :=
  chunks.foldl (fun acc c => acc ++ c) ""

/-- The tail of `run_cmd` (`a00_qpip/utils.py`, after `progress_dlg.close()`):
branch on `process.returncode`. -/
def run_cmd_outcome (returncode : Int) (chunks : List String)
    (description : String) : CmdOutcome :=
  if returncode ≠ 0 then
    CmdOutcome.failure "Command failed." "Command failed" (fullOutput chunks)
  else
    CmdOutcome.success "Command succeeded." (pyCapitalize description ++ " succeeded")

/-- Whether `run_cmd` took the failure branch. -/
def CmdOutcome.isFailure : CmdOutcome → Bool
  | .failure _ _ _ => true
  | .success _ _ => false

/-! ## `Plugin.__init__` / `Plugin.unload` state round trip -/

/-- The pieces of host state that `Plugin.__init__` and `Plugin.unload`
mutate and that claim the round trip is about: the `qgis.utils.loadPlugin`
slot (of abstract function type `α`) and `sys.path`. -/
structure HostState (α : Type) where
  loadPlugin : α
  sysPath : List String
deriving DecidableEq

/-- The plugin object state relevant to the round trip: the captured
`_original_loadPlugin`. -/
structure PluginObj (α : Type) where
  originalLoadPlugin : α
deriving DecidableEq

/-- `Plugin.__init__` restricted to the modelled state: insert the
site-packages path at the front of `sys.path` when absent, capture the
current `qgis.utils.loadPlugin`, and replace it with the patched one. -/
def plugin_init {α : Type} (patched : α) (sitePackagesPath : String)
    (h : HostState α) : PluginObj α × HostState α :=
  let h1 :=
    if sitePackagesPath ∈ h.sysPath then h
    else { h with sysPath := sitePackagesPath :: h.sysPath }
  ({ originalLoadPlugin := h.loadPlugin }, { h1 with loadPlugin := patched })

/-- `Plugin.unload` restricted to the modelled state: restore the captured
`loadPlugin` and remove (the first occurrence of) the site-packages path from
`sys.path` when present. -/
def plugin_unload {α : Type} (p : PluginObj α) (sitePackagesPath : String)
    (h : HostState α) : HostState α :=
  let h1 := { h with loadPlugin := p.originalLoadPlugin }
  if sitePackagesPath ∈ h1.sysPath then
    { h1 with sysPath := h1.sysPath.erase sitePackagesPath }
  else h1

/-! ## Derived characterizations used in the theorems -/

/-- The error that the `try/except` of `check_deps` records for a given
resolver outcome. -/
def errorOf : ResolveResult → Option ResolutionError
  | .ok => none
  | .distributionNotFound => some ResolutionError.distributionNotFound
  | .versionConflict => some ResolutionError.versionConflict

/-- Whether resolving a requirement raises one of the two caught
exceptions. -/
def requireFails (env : CheckEnv) (r : Requirement) : Bool :=
  match env.require r.line with
  | .ok => false
  | .distributionNotFound => true
  | .versionConflict => true

/-- Whether some requirement of a plugin's manifest fails to resolve
(a plugin without a `requirements.txt` contributes nothing). -/
def pluginFails (env : CheckEnv) (p : String) : Bool :=
  ((env.reqFiles p).getD []).any (requireFails env)

/-- The `Req` that `check_deps` builds for requirement `r` of plugin `p`. -/
def mkReq (env : CheckEnv) (pluginName : String) (r : Requirement) : Req :=
  { plugin := pluginName, requirement := r.line
    error := errorOf (env.require r.line) }

/-- The requirements contributed by one plugin: the parsed lines of its
`requirements.txt`, in file order (empty when the file is absent). -/
def specPluginReqs (env : CheckEnv) (p : String) : List Req :=
  ((env.reqFiles p).getD []).map (mkReq env p)

/-- All requirements contributed by a list of plugin names, in order. -/
def specAllReqs (env : CheckEnv) : List String → List Req
  | [] => []
  | p :: rest => specPluginReqs env p ++ specAllReqs env rest

/-- All `Req` records stored across a dialog's library list. -/
def allReqsOf : List Lib → List Req
  | [] => []
  | l :: rest => l.required_by ++ allReqsOf rest

/-- All `Req` records stored across the `libs` dictionary. -/
def assocAllReqs : List (String × Lib) → List Req
  | [] => []
  | kl :: rest => kl.2.required_by ++ assocAllReqs rest

/-- The requirements recorded for one plugin across a library list. -/
def reqsOfPlugin (p : String) (libs : List Lib) : List Req :=
  (allReqsOf libs).filter (fun r => r.plugin == p)

/-- The requirements a list of checked plugin names should contribute for
plugin `p`. -/
def specReqsOfPlugin (env : CheckEnv) (names : List String) (p : String) :
    List Req :=
  (specAllReqs env names).filter (fun r => r.plugin == p)

/-- Whether a system action is the pip uninstall command (the argument after
`python -um pip` is `uninstall`). -/
def isPipUninstallCmd : SysAction → Bool
  | .runCmd (_ :: _ :: _ :: "uninstall" :: _) _ => true
  | _ => false

/-- Whether a system action is the pip install command (the argument after
`python -um pip` is `install`). -/
def isPipInstallCmd : SysAction → Bool
  | .runCmd (_ :: _ :: _ :: "install" :: _) _ => true
  | _ => false

/-! ## Settings toggles (`_check_on_startup`, `_check_on_install`) -/

/-- `QgsSettings.value(key, default)` over the stored key/value pairs of the
"QPIP" group, modelled as an association list. -/
def settingsValue (stored : List (String × String)) (key default : String) :
    String :=
  (stored.lookup key).getD default

/-- `Plugin._check_on_startup`: stored value of "check_on_startup" with
default "no", compared with "yes". -/
def check_on_startup (stored : List (String × String)) : Bool :=
  settingsValue stored "check_on_startup" "no" == "yes"

/-- `Plugin._check_on_install`: stored value of "check_on_install" with
default "yes", compared with "yes". -/
def check_on_install (stored : List (String × String)) : Bool :=
  settingsValue stored "check_on_install" "yes" == "yes"

/-! ## Small concrete environments used to evaluate the definitions -/

/-- One plugin "pa" whose manifest requires `cowsay==4.0`, which fails to
resolve with `DistributionNotFound`; no installed distributions. -/
def sampleCheckEnv : CheckEnv where
  activePlugins := ["pa"]
  reqFiles := fun p =>
    if p == "pa" then some [{ key := "cowsay", line := "cowsay==4.0" }] else none
  require := fun _ => ResolveResult.distributionNotFound
  dists := []
  sitePackagesPath := ""

/-- Like `sampleCheckEnv`, but every requirement resolves. -/
def sampleCheckEnvOk : CheckEnv where
  activePlugins := ["pa"]
  reqFiles := fun p =>
    if p == "pa" then some [{ key := "cowsay", line := "cowsay==4.0" }] else none
  require := fun _ => ResolveResult.ok
  dists := []
  sitePackagesPath := ""

/-- An environment in which no plugin has a `requirements.txt`. -/
def sampleCheckEnvNoFiles : CheckEnv where
  activePlugins := []
  reqFiles := fun _ => none
  require := fun _ => ResolveResult.ok
  dists := []
  sitePackagesPath := ""

/-- The `Req` that `check_deps` records in `sampleCheckEnv`. -/
def sampleReq : Req where
  plugin := "pa"
  requirement := "cowsay==4.0"
  error := some ResolutionError.distributionNotFound

/-- The `Lib` that `check_deps` builds in `sampleCheckEnv`. -/
def sampleLib : Lib where
  name := "cowsay"
  required_by := [sampleReq]
  installed_dist := none
  qpip := true

/-- A lifecycle environment: GUI not yet loaded, check-on-startup enabled. -/
def sampleLifecycleEnv : LifecycleEnv where
  guiLoaded := false
  checkOnStartup := true
  checkOnInstall := true
  loadResult := fun _ => true
  startResult := fun _ => true
  needsGui := fun _ => false

/-! ## Theorems -/

/-- Claim C10: with no stored value, `_check_on_startup` defaults to `False`
while `_check_on_install` defaults to `True`; with a stored value, each
returns `True` exactly when that value is the string "yes". -/
theorem C10_check_toggle_defaults (stored : List (String × String)) :
    (stored.lookup "check_on_startup" = none → check_on_startup stored = false) ∧
    (stored.lookup "check_on_install" = none → check_on_install stored = true) ∧
    (∀ v, stored.lookup "check_on_startup" = some v →
      (check_on_startup stored = true ↔ v = "yes")) ∧
    (∀ v, stored.lookup "check_on_install" = some v →
      (check_on_install stored = true ↔ v = "yes")) := by
  refine ⟨fun h => ?_, fun h => ?_, fun v h => ?_, fun v h => ?_⟩ <;>
    simp [check_on_startup, check_on_install, settingsValue, h]

/-- Witness for C10 at concrete stores. -/
theorem C10_check_toggle_defaults_witness :
    check_on_startup [] = false ∧ check_on_install [] = true ∧
    (check_on_startup [("check_on_startup", "yes")] = true ↔ "yes" = "yes") ∧
    (check_on_install [("check_on_install", "no")] = true ↔ "no" = "yes") :=
  ⟨(C10_check_toggle_defaults []).1 rfl,
   (C10_check_toggle_defaults []).2.1 rfl,
   (C10_check_toggle_defaults [("check_on_startup", "yes")]).2.2.1 "yes" rfl,
   (C10_check_toggle_defaults [("check_on_install", "no")]).2.2.2 "no" rfl⟩

/-- Claim C9: constructing the Plugin and then unloading it restores the
host's loader hook to the original captured at construction and leaves
`sys.path` without the inserted site-packages path (indeed exactly as it
was). -/
theorem C9_init_unload_round_trip {α : Type} (patched : α)
    (sitePackagesPath : String) (h : HostState α)
    (hfresh : sitePackagesPath ∉ h.sysPath) :
    (plugin_unload (plugin_init patched sitePackagesPath h).1 sitePackagesPath
        (plugin_init patched sitePackagesPath h).2).loadPlugin = h.loadPlugin ∧
    sitePackagesPath ∉
      (plugin_unload (plugin_init patched sitePackagesPath h).1 sitePackagesPath
        (plugin_init patched sitePackagesPath h).2).sysPath ∧
    (plugin_unload (plugin_init patched sitePackagesPath h).1 sitePackagesPath
        (plugin_init patched sitePackagesPath h).2).sysPath = h.sysPath := by
  simp [plugin_init, plugin_unload, hfresh]

/-- Witness for C9 at a concrete host state. -/
theorem C9_init_unload_round_trip_witness :
    (plugin_unload (plugin_init 1 "sp" ({ loadPlugin := 0, sysPath := ["a"] } : HostState Nat)).1
        "sp" (plugin_init 1 "sp" ({ loadPlugin := 0, sysPath := ["a"] } : HostState Nat)).2).loadPlugin = 0 ∧
    "sp" ∉
      (plugin_unload (plugin_init 1 "sp" ({ loadPlugin := 0, sysPath := ["a"] } : HostState Nat)).1
        "sp" (plugin_init 1 "sp" ({ loadPlugin := 0, sysPath := ["a"] } : HostState Nat)).2).sysPath ∧
    (plugin_unload (plugin_init 1 "sp" ({ loadPlugin := 0, sysPath := ["a"] } : HostState Nat)).1
        "sp" (plugin_init 1 "sp" ({ loadPlugin := 0, sysPath := ["a"] } : HostState Nat)).2).sysPath = ["a"] :=
  C9_init_unload_round_trip 1 "sp" { loadPlugin := 0, sysPath := ["a"] } (by decide)

/-- Claim C6: after the subprocess terminates, `run_cmd` takes the failure
branch (warning plus a message box carrying the accumulated output) if and
only if the exit code is nonzero; exit code zero always yields the success
branch. -/
theorem C6_run_cmd_exit_code (returncode : Int) (chunks : List String)
    (description : String) :
    ((run_cmd_outcome returncode chunks description).isFailure = true ↔
      returncode ≠ 0) ∧
    (returncode ≠ 0 → run_cmd_outcome returncode chunks description =
      CmdOutcome.failure "Command failed." "Command failed" (fullOutput chunks)) ∧
    (returncode = 0 → run_cmd_outcome returncode chunks description =
      CmdOutcome.success "Command succeeded."
        (pyCapitalize description ++ " succeeded")) := by
  by_cases h : returncode = 0 <;>
    simp [run_cmd_outcome, CmdOutcome.isFailure, h]

/-- Witness for C6 at exit codes 1 and 0. -/
theorem C6_run_cmd_exit_code_witness :
    run_cmd_outcome 1 ["out"] "d" =
      CmdOutcome.failure "Command failed." "Command failed" (fullOutput ["out"]) ∧
    run_cmd_outcome 0 [] "doing it" =
      CmdOutcome.success "Command succeeded."
        (pyCapitalize "doing it" ++ " succeeded") :=
  ⟨(C6_run_cmd_exit_code 1 ["out"] "d").2.1 (by decide),
   (C6_run_cmd_exit_code 0 [] "doing it").2.2 rfl⟩

/-- Claim C4: for a non-empty selection, `pip_install_reqs` first creates the
prefix directory and then runs pip install with `--target` pointing at the
prefix directory `<settingsDir>/python/dependencies`. -/
theorem C4_pip_install_target (pythonCommand settingsDir : String)
    (reqs : List String) (hreqs : reqs ≠ []) :
    pip_install_reqs pythonCommand (prefix_path settingsDir) reqs =
      [SysAction.makedirs (prefix_path settingsDir),
       SysAction.runCmd
         ([pythonCommand, "-um", "pip", "install"] ++ reqs
           ++ ["--target", prefix_path settingsDir])
         ("installing " ++ toString reqs.length ++ " requirements")] ∧
    (prefix_path settingsDir = settingsDir ++ "python/dependencies" ∨
     prefix_path settingsDir = settingsDir ++ "/python/dependencies") := by
  refine ⟨rfl, ?_⟩
  have hcond : ∀ s : String,
      ¬((s ++ "python").data.getLast? = some '/' ∨ (s ++ "python") = "") := by
    intro s hor
    rcases hor with h1 | h1
    · simp [String.data_append] at h1
    · have h2 := congrArg String.data h1
      simp [String.data_append] at h2
  unfold prefix_path ospJoin
  by_cases hd : settingsDir.data.getLast? = some '/' ∨ settingsDir = ""
  · left
    rw [if_pos hd, if_neg (hcond settingsDir)]
    refine String.ext ?_
    simp [String.data_append]
  · right
    rw [if_neg hd, if_neg (hcond (settingsDir ++ "/"))]
    refine String.ext ?_
    simp [String.data_append]

/-- Witness for C4 at a concrete selection and settings directory. -/
theorem C4_pip_install_target_witness :
    pip_install_reqs "python" (prefix_path "/home/u/.qgis3/") ["cowsay==4.0"] =
      [SysAction.makedirs (prefix_path "/home/u/.qgis3/"),
       SysAction.runCmd
         (["python", "-um", "pip", "install"] ++ ["cowsay==4.0"]
           ++ ["--target", prefix_path "/home/u/.qgis3/"])
         ("installing " ++ toString (["cowsay==4.0"] : List String).length
           ++ " requirements")] ∧
    (prefix_path "/home/u/.qgis3/" = "/home/u/.qgis3/" ++ "python/dependencies" ∨
     prefix_path "/home/u/.qgis3/" = "/home/u/.qgis3/" ++ "/python/dependencies") :=
  C4_pip_install_target "python" "/home/u/.qgis3/" ["cowsay==4.0"] (by decide)

/-- Claim C5: a rejected dialog causes no pip command at all; an accepted
dialog runs the uninstall command exactly when the uninstall selection is
non-empty, the install command exactly when the install selection is
non-empty, and every uninstall command strictly precedes every install
command. -/
theorem C5_dialog_gates_pip (selUninstall selInstall : List String)
    (pythonCommand prefixPath : String) :
    promt_install false selUninstall selInstall pythonCommand prefixPath = [] ∧
    ((promt_install true selUninstall selInstall pythonCommand prefixPath).any
        isPipUninstallCmd = true ↔ selUninstall ≠ []) ∧
    ((promt_install true selUninstall selInstall pythonCommand prefixPath).any
        isPipInstallCmd = true ↔ selInstall ≠ []) ∧
    (∃ k : Nat,
      (∀ a ∈ (promt_install true selUninstall selInstall pythonCommand prefixPath).take k,
        isPipInstallCmd a = false) ∧
      (∀ a ∈ (promt_install true selUninstall selInstall pythonCommand prefixPath).drop k,
        isPipUninstallCmd a = false)) := by
  refine ⟨rfl, ?_, ?_, ?_⟩
  · cases selUninstall <;> cases selInstall <;>
      simp [promt_install, pip_uninstall_reqs, pip_install_reqs,
        isPipUninstallCmd, isPipInstallCmd]
  · cases selUninstall <;> cases selInstall <;>
      simp [promt_install, pip_uninstall_reqs, pip_install_reqs,
        isPipUninstallCmd, isPipInstallCmd]
  · cases selUninstall <;> cases selInstall
    · exact ⟨0, by simp [promt_install], by simp [promt_install]⟩
    · exact ⟨0, by simp [promt_install], by
        simp [promt_install, pip_install_reqs, isPipUninstallCmd]⟩
    · exact ⟨1, by
        simp [promt_install, pip_uninstall_reqs, isPipInstallCmd], by
        simp [promt_install, pip_uninstall_reqs]⟩
    · exact ⟨1, by
        simp [promt_install, pip_uninstall_reqs, pip_install_reqs, isPipInstallCmd], by
        simp [promt_install, pip_uninstall_reqs, pip_install_reqs, isPipUninstallCmd]⟩

/-- Witness for C5 at concrete selections. -/
theorem C5_dialog_gates_pip_witness :
    promt_install false ["a"] ["b"] "py" "pp" = [] ∧
    (promt_install true ["a"] ["b"] "py" "pp").any isPipUninstallCmd = true ∧
    (promt_install true ["a"] ["b"] "py" "pp").any isPipInstallCmd = true ∧
    (∃ k : Nat,
      (∀ a ∈ (promt_install true ["a"] ["b"] "py" "pp").take k,
        isPipInstallCmd a = false) ∧
      (∀ a ∈ (promt_install true ["a"] ["b"] "py" "pp").drop k,
        isPipUninstallCmd a = false)) :=
  ⟨(C5_dialog_gates_pip ["a"] ["b"] "py" "pp").1,
   (C5_dialog_gates_pip ["a"] ["b"] "py" "pp").2.1.mpr (by decide),
   (C5_dialog_gates_pip ["a"] ["b"] "py" "pp").2.2.1.mpr (by decide),
   (C5_dialog_gates_pip ["a"] ["b"] "py" "pp").2.2.2⟩

/-- Every package of the list gets a `loadOriginal` call in
`start_packages`. -/
lemma loadOriginal_mem_start_packages (env : LifecycleEnv) {n : String} :
    ∀ {names : List String}, n ∈ names →
      Event.loadOriginal n ∈ start_packages env names := by
  intro names h
  induction names with
  | nil => simp at h
  | cons m rest ih =>
    rcases List.mem_cons.mp h with h1 | h1
    · subst h1
      simp [start_packages]
    · exact List.mem_append_right _ (ih h1)

/-- Claim C3: with the GUI not ready and check-on-startup enabled,
`patched_load_plugin` never activates a plugin: it appends the name to the
deferred list, emits no effect, and returns `False`; `initComplete` then
empties the deferred list and its event sequence starts with the dependency
check, after which every deferred package receives its load call. -/
theorem C3_deferred_loading (env : LifecycleEnv) (deferredPackages : List String)
    (packageName : String) (hg : env.guiLoaded = false)
    (hs : env.checkOnStartup = true) :
    patched_load_plugin env deferredPackages packageName =
      (deferredPackages ++ [packageName], [], false) ∧
    (initComplete env (deferredPackages ++ [packageName])).1 = [] ∧
    (∃ rest, (initComplete env (deferredPackages ++ [packageName])).2 =
        Event.checkDeps (deferredPackages ++ [packageName]) :: rest ∧
      ∀ n ∈ deferredPackages ++ [packageName], Event.loadOriginal n ∈ rest) := by
  refine ⟨by simp [patched_load_plugin, hg, hs], ?_, ?_⟩
  · simp [initComplete]
  · have hne : deferredPackages ++ [packageName] ≠ [] := by simp
    refine ⟨(if env.needsGui (deferredPackages ++ [packageName])
        then [Event.promptInstall] else [])
      ++ Event.saveSettings ::
        start_packages env (deferredPackages ++ [packageName]), ?_, ?_⟩
    · simp [initComplete, hne, checkAndStart]
    · intro n hn
      exact List.mem_append_right _
        (List.mem_cons_of_mem _ (loadOriginal_mem_start_packages env hn))

/-- Witness for C3 at a concrete environment. -/
theorem C3_deferred_loading_witness :
    patched_load_plugin sampleLifecycleEnv [] "pa" = ([] ++ ["pa"], [], false) ∧
    (initComplete sampleLifecycleEnv ([] ++ ["pa"])).1 = [] ∧
    (∃ rest, (initComplete sampleLifecycleEnv ([] ++ ["pa"])).2 =
        Event.checkDeps ([] ++ ["pa"]) :: rest ∧
      ∀ n ∈ ([] ++ ["pa"] : List String), Event.loadOriginal n ∈ rest) :=
  C3_deferred_loading sampleLifecycleEnv [] "pa" rfl rfl

/-- What the action combo of a lib reports right after `_default_all`:
the single install candidate when the lib is qpip-managed, required exactly
once, erroring and not installed; `none` ("Do nothing") otherwise. -/
lemma currentData_defaultIndex (l : Lib) :
    currentData l (defaultIndex l) =
      (match l.required_by with
        | [r] =>
            if l.qpip && r.error.isSome && l.installed_dist.isNone
            then some (ActionData.install r.requirement) else none
        | _ => none) := by
  unfold defaultIndex
  by_cases hc : l.qpip ∧ l.required_by.length = 1 ∧
      (match l.required_by with
        | r :: _ => r.error.isSome
        | [] => false) = true ∧
      l.installed_dist = none
  · rw [if_pos hc]
    obtain ⟨hq, hlen, herr, hinst⟩ := hc
    obtain ⟨r, hr⟩ := List.length_eq_one.mp hlen
    rw [hr] at herr ⊢
    simp at herr
    simp [currentData, comboItems, hr, hinst, hq, herr]
  · rw [if_neg hc]
    have hz : currentData l 0 = none := by
      simp [currentData, comboItems]
    rw [hz]
    cases hrb : l.required_by with
    | nil => rfl
    | cons r rest =>
      cases rest with
      | nil =>
        have hcond : (l.qpip && r.error.isSome && l.installed_dist.isNone) = false := by
          by_contra hb
          have hb' := eq_true_of_ne_false hb
          simp only [Bool.and_eq_true] at hb'
          exact hc ⟨hb'.1.1, by rw [hrb]; rfl,
            by rw [hrb]; simpa using hb'.1.2,
            Option.isNone_iff_eq_none.mp hb'.2⟩
        simp [hcond]
      | cons r' rest' => rfl

/-- Claim C8: after `_default_all`, `reqs_to_install` consists exactly of the
requirement strings of the qpip-managed libraries with a single, erroring
requirement and no installed distribution; every other library contributes
nothing, and `reqs_to_uninstall` is empty. -/
theorem C8_default_selection (libs : List Lib) :
    reqsToInstall libs defaultIndex =
      libs.filterMap (fun l =>
        match l.required_by with
        | [r] =>
            if l.qpip && r.error.isSome && l.installed_dist.isNone
            then some r.requirement else none
        | _ => none) ∧
    reqsToUninstall libs defaultIndex = [] := by
  constructor
  · induction libs with
    | nil => rfl
    | cons l rest ih =>
      simp only [reqsToInstall, List.filterMap_cons] at ih ⊢
      rw [currentData_defaultIndex]
      cases hrb : l.required_by with
      | nil => exact ih
      | cons r rest' =>
        cases rest' with
        | nil =>
          by_cases hcond : (l.qpip && r.error.isSome && l.installed_dist.isNone) = true
          · simp [hcond, ih]
          · simp [hcond, ih]
        | cons r' rest'' => exact ih
  · induction libs with
    | nil => rfl
    | cons l rest ih =>
      simp only [reqsToUninstall, List.filterMap_cons] at ih ⊢
      rw [currentData_defaultIndex]
      cases hrb : l.required_by with
      | nil => exact ih
      | cons r rest' =>
        cases rest' with
        | nil =>
          by_cases hcond : (l.qpip && r.error.isSome && l.installed_dist.isNone) = true
          · simp [hcond, ih]
          · simp [hcond, ih]
        | cons r' rest'' => exact ih

/-- `requireFails` holds exactly when the resolver does not succeed. -/
lemma requireFails_eq_true (env : CheckEnv) (r : Requirement) :
    requireFails env r = true ↔ env.require r.line ≠ ResolveResult.ok := by
  unfold requireFails
  cases h : env.require r.line <;> simp [h]

/-- One requirement step leaves `needs_gui` raised exactly when it was
already raised or this requirement fails. -/
lemma processRequirement_snd (env : CheckEnv) (p : String)
    (acc : List (String × Lib) × Bool) (r : Requirement) :
    (processRequirement env p acc r).2 = (acc.2 || requireFails env r) := by
  obtain ⟨libs, b⟩ := acc
  unfold processRequirement requireFails
  cases h : env.require r.line <;> simp [h]

/-- The requirement loop of one plugin accumulates `needs_gui` as an `any`
over its requirement lines. -/
lemma foldl_processRequirement_snd (env : CheckEnv) (p : String)
    (lines : List Requirement) :
    ∀ acc, (lines.foldl (processRequirement env p) acc).2 =
      (acc.2 || lines.any (requireFails env)) := by
  induction lines with
  | nil => intro acc; simp
  | cons r rest ih =>
    intro acc
    rw [List.foldl_cons, ih, processRequirement_snd]
    simp [Bool.or_assoc]

/-- One plugin step accumulates `needs_gui` via `pluginFails`. -/
lemma processPlugin_snd (env : CheckEnv) (acc : List (String × Lib) × Bool)
    (p : String) :
    (processPlugin env acc p).2 = (acc.2 || pluginFails env p) := by
  unfold processPlugin pluginFails
  cases h : env.reqFiles p <;> simp [h, foldl_processRequirement_snd]

/-- The plugin loop accumulates `needs_gui` as an `any` over the plugin
names. -/
lemma foldl_processPlugin_snd (env : CheckEnv) (names : List String) :
    ∀ acc, (names.foldl (processPlugin env) acc).2 =
      (acc.2 || names.any (pluginFails env)) := by
  induction names with
  | nil => intro acc; simp
  | cons p rest ih =>
    intro acc
    rw [List.foldl_cons, ih, processPlugin_snd]
    simp [Bool.or_assoc]

/-- The `needs_gui` flag of `check_deps`, characterized as an `any` over the
checked plugin names. -/
lemma check_deps_snd (env : CheckEnv) (additionalPlugins : List String) :
    (check_deps env additionalPlugins).2 =
      (env.activePlugins ++ additionalPlugins).any (pluginFails env) := by
  unfold check_deps
  rw [foldl_processPlugin_snd]
  simp

/-- Claim C2: `check_deps` reports that the install dialog is needed if and
only if some requirement of some checked plugin fails to resolve. -/
theorem C2_needs_gui_iff (env : CheckEnv) (additionalPlugins : List String) :
    (check_deps env additionalPlugins).2 = true ↔
      ∃ p ∈ env.activePlugins ++ additionalPlugins,
        ∃ r ∈ (env.reqFiles p).getD [],
          env.require r.line ≠ ResolveResult.ok := by
  rw [check_deps_snd]
  simp only [List.any_eq_true, pluginFails, requireFails_eq_true]

/-- Witness for C2: in `sampleCheckEnv` the single requirement fails, so the
flag is raised. -/
theorem C2_needs_gui_iff_witness :
    (check_deps sampleCheckEnv []).2 = true :=
  (C2_needs_gui_iff sampleCheckEnv []).mpr
    ⟨"pa", by decide, { key := "cowsay", line := "cowsay==4.0" }, by decide,
      by decide⟩

/-- Membership after a dictionary store: the stored pair or an original
entry. -/
lemma mem_setLib :
    ∀ (libs : List (String × Lib)) (k : String) (l : Lib) (x : String × Lib),
      x ∈ setLib libs k l → x = (k, l) ∨ x ∈ libs := by
  intro libs
  induction libs with
  | nil =>
    intro k l x h
    simp [setLib] at h
    exact Or.inl h
  | cons kl rest ih =>
    obtain ⟨k', l'⟩ := kl
    intro k l x h
    by_cases he : k' = k
    · simp [setLib, he] at h
      rcases h with h | h
      · exact Or.inl (by simp [h])
      · exact Or.inr (List.mem_cons_of_mem _ h)
    · simp [setLib, he] at h
      rcases h with h | h
      · exact Or.inr (by simp [h])
      · rcases ih k l x h with h1 | h1
        · exact Or.inl h1
        · exact Or.inr (List.mem_cons_of_mem _ h1)

/-- A pointwise property of all recorded requirements transfers to the
requirements of any dictionary lookup (the `defaultdict` factory value has
none). -/
lemma getLib_required_by_pred (P : Req → Prop) :
    ∀ (libs : List (String × Lib)) (k : String),
      (∀ kl ∈ libs, ∀ q ∈ kl.2.required_by, P q) →
      ∀ q ∈ (getLib libs k).required_by, P q := by
  intro libs
  induction libs with
  | nil =>
    intro k _ q hq
    simp [getLib, Lib.default] at hq
  | cons kl rest ih =>
    obtain ⟨k', l'⟩ := kl
    intro k hall q hq
    by_cases he : k' = k
    · rw [getLib, if_pos he] at hq
      exact hall (k', l') (by simp) q hq
    · rw [getLib, if_neg he] at hq
      exact ih k (fun kl hkl => hall kl (List.mem_cons_of_mem _ hkl)) q hq

/-- The requirement step keeps every recorded error equal to the error the
resolver outcome dictates for its requirement line. -/
lemma goodError_processRequirement (env : CheckEnv) (p : String)
    (acc : List (String × Lib) × Bool) (r : Requirement)
    (h : ∀ kl ∈ acc.1, ∀ q ∈ kl.2.required_by,
      q.error = errorOf (env.require q.requirement)) :
    ∀ kl ∈ (processRequirement env p acc r).1, ∀ q ∈ kl.2.required_by,
      q.error = errorOf (env.require q.requirement) := by
  obtain ⟨libs, b⟩ := acc
  intro kl hkl q hq
  have hstep : ∀ e, e = errorOf (env.require r.line) →
      ∀ kl' ∈ setLib libs r.key
        { getLib libs r.key with
          name := r.key,
          required_by := (getLib libs r.key).required_by ++
            [{ plugin := p, requirement := r.line, error := e }] },
      ∀ q' ∈ kl'.2.required_by, q'.error = errorOf (env.require q'.requirement) := by
    intro e he kl' hkl' q' hq'
    rcases mem_setLib _ _ _ _ hkl' with h1 | h1
    · rw [h1] at hq'
      simp only at hq'
      rcases List.mem_append.mp hq' with h2 | h2
      · exact getLib_required_by_pred _ libs r.key h q' h2
      · rw [List.mem_singleton.mp h2]
        simpa using he
    · exact h kl' h1 q' hq'
  cases hres : env.require r.line <;>
    · simp only [processRequirement, hres] at hkl
      exact hstep _ (by simp [errorOf, hres]) kl hkl q hq

/-- The requirement loop of one plugin keeps every recorded error matched to
its resolver outcome. -/
lemma goodError_foldl_processRequirement (env : CheckEnv) (p : String)
    (lines : List Requirement) :
    ∀ acc, (∀ kl ∈ acc.1, ∀ q ∈ kl.2.required_by,
        q.error = errorOf (env.require q.requirement)) →
      ∀ kl ∈ (lines.foldl (processRequirement env p) acc).1,
        ∀ q ∈ kl.2.required_by, q.error = errorOf (env.require q.requirement) := by
  induction lines with
  | nil => intro acc h; simpa using h
  | cons r rest ih =>
    intro acc h
    rw [List.foldl_cons]
    exact ih _ (goodError_processRequirement env p acc r h)

/-- The plugin step keeps every recorded error matched to its resolver
outcome. -/
lemma goodError_processPlugin (env : CheckEnv)
    (acc : List (String × Lib) × Bool) (p : String)
    (h : ∀ kl ∈ acc.1, ∀ q ∈ kl.2.required_by,
      q.error = errorOf (env.require q.requirement)) :
    ∀ kl ∈ (processPlugin env acc p).1, ∀ q ∈ kl.2.required_by,
      q.error = errorOf (env.require q.requirement) := by
  unfold processPlugin
  cases hf : env.reqFiles p
  · simpa using h
  · exact goodError_foldl_processRequirement env p _ acc h

/-- The plugin loop keeps every recorded error matched to its resolver
outcome. -/
lemma goodError_foldl_processPlugin (env : CheckEnv) (names : List String) :
    ∀ acc, (∀ kl ∈ acc.1, ∀ q ∈ kl.2.required_by,
        q.error = errorOf (env.require q.requirement)) →
      ∀ kl ∈ (names.foldl (processPlugin env) acc).1,
        ∀ q ∈ kl.2.required_by, q.error = errorOf (env.require q.requirement) := by
  induction names with
  | nil => intro acc h; simpa using h
  | cons p rest ih =>
    intro acc h
    rw [List.foldl_cons]
    exact ih _ (goodError_processPlugin env acc p h)

/-- The distribution loop records no requirements at all. -/
lemma required_by_registerDist (sp : String) (libs : List (String × Lib))
    (d : Dist) (h : ∀ kl ∈ libs, kl.2.required_by = ([] : List Req)) :
    ∀ kl ∈ registerDist sp libs d, kl.2.required_by = [] := by
  intro kl hkl
  unfold registerDist at hkl
  rcases mem_setLib _ _ _ _ hkl with h1 | h1
  · rw [h1]
    have hget : (getLib libs d.name).required_by = [] := by
      have := getLib_required_by_pred (fun _ => False) libs d.name
        (fun kl hkl q hq => by simp [h kl hkl] at hq)
      exact List.eq_nil_iff_forall_not_mem.mpr this
    split <;> simpa using hget
  · exact h kl h1

/-- The whole distribution loop records no requirements. -/
lemma required_by_foldl_registerDist (sp : String) (dists : List Dist) :
    ∀ libs, (∀ kl ∈ libs, kl.2.required_by = ([] : List Req)) →
      ∀ kl ∈ dists.foldl (registerDist sp) libs, kl.2.required_by = [] := by
  induction dists with
  | nil => intro libs h; simpa using h
  | cons d rest ih =>
    intro libs h
    rw [List.foldl_cons]
    exact ih _ (required_by_registerDist sp libs d h)

/-- Claim C1: every requirement recorded by the reconciliation pass carries
exactly one of the three classifications — satisfied (no error), missing
(`DistributionNotFound`) or version-conflicted (`VersionConflict`) — and the
recorded classification matches the resolver outcome for its line. -/
theorem C1_requirement_classification (env : CheckEnv)
    (additionalPlugins : List String) (l : Lib)
    (hl : l ∈ (check_deps env additionalPlugins).1) (r : Req)
    (hr : r ∈ l.required_by) :
    (r.error = none ∨ r.error = some ResolutionError.distributionNotFound ∨
      r.error = some ResolutionError.versionConflict) ∧
    (r.error = none ↔ env.require r.requirement = ResolveResult.ok) ∧
    (r.error = some ResolutionError.distributionNotFound ↔
      env.require r.requirement = ResolveResult.distributionNotFound) ∧
    (r.error = some ResolutionError.versionConflict ↔
      env.require r.requirement = ResolveResult.versionConflict) := by
  have hgood : r.error = errorOf (env.require r.requirement) := by
    simp only [check_deps, List.mem_map] at hl
    obtain ⟨kl, hkl, hsnd⟩ := hl
    have hbase : ∀ kl' ∈ env.dists.foldl (registerDist env.sitePackagesPath) [],
        ∀ q ∈ kl'.2.required_by, q.error = errorOf (env.require q.requirement) := by
      intro kl' hkl' q hq
      rw [required_by_foldl_registerDist env.sitePackagesPath env.dists []
        (by simp) kl' hkl'] at hq
      simp at hq
    exact goodError_foldl_processPlugin env
      (env.activePlugins ++ additionalPlugins) _ hbase kl hkl r (hsnd ▸ hr)
  rw [hgood]
  cases henv : env.require r.requirement <;> simp [errorOf]

/-- Witness for C1 at the concrete single-requirement environment. -/
theorem C1_requirement_classification_witness :
    (sampleReq.error = none ∨
      sampleReq.error = some ResolutionError.distributionNotFound ∨
      sampleReq.error = some ResolutionError.versionConflict) ∧
    (sampleReq.error = none ↔
      sampleCheckEnv.require "cowsay==4.0" = ResolveResult.ok) ∧
    (sampleReq.error = some ResolutionError.distributionNotFound ↔
      sampleCheckEnv.require "cowsay==4.0" = ResolveResult.distributionNotFound) ∧
    (sampleReq.error = some ResolutionError.versionConflict ↔
      sampleCheckEnv.require "cowsay==4.0" = ResolveResult.versionConflict) :=
  C1_requirement_classification sampleCheckEnv [] sampleLib (by decide)
    sampleReq (by decide)

/-- Appending one requirement to one dictionary entry appends it, up to
permutation, to the flattened requirement list. -/
lemma assocAllReqs_setLib (r : Req) :
    ∀ (libs : List (String × Lib)) (k : String) (l : Lib),
      l.required_by = (getLib libs k).required_by ++ [r] →
      (assocAllReqs (setLib libs k l)).Perm (assocAllReqs libs ++ [r]) := by
  intro libs
  induction libs with
  | nil =>
    intro k l h
    simp [setLib, assocAllReqs, h, getLib, Lib.default]
  | cons kl rest ih =>
    obtain ⟨k', l'⟩ := kl
    intro k l h
    by_cases he : k' = k
    · rw [getLib, if_pos he] at h
      simp only [setLib, if_pos he, assocAllReqs, h]
      rw [List.append_assoc, List.append_assoc]
      exact (@List.perm_append_comm _ [r]
        (assocAllReqs rest)).append_left l'.required_by
    · rw [getLib, if_neg he] at h
      simp only [setLib, if_neg he, assocAllReqs]
      rw [List.append_assoc]
      exact (ih k l h).append_left l'.required_by

/-- One requirement step appends, up to permutation, exactly the built `Req`
to the flattened requirement list. -/
lemma assocAllReqs_processRequirement (env : CheckEnv) (p : String)
    (acc : List (String × Lib) × Bool) (r : Requirement) :
    (assocAllReqs (processRequirement env p acc r).1).Perm
      (assocAllReqs acc.1 ++ [mkReq env p r]) := by
  obtain ⟨libs, b⟩ := acc
  cases hres : env.require r.line <;>
    · simp only [processRequirement, hres]
      exact assocAllReqs_setLib (mkReq env p r) libs r.key _
        (by simp [mkReq, errorOf, hres])

/-- The requirement loop of one plugin appends, up to permutation, its
requirement lines in file order. -/
lemma assocAllReqs_foldl_processRequirement (env : CheckEnv) (p : String)
    (lines : List Requirement) :
    ∀ acc, (assocAllReqs (lines.foldl (processRequirement env p) acc).1).Perm
      (assocAllReqs acc.1 ++ lines.map (mkReq env p)) := by
  induction lines with
  | nil => intro acc; simp
  | cons x xs ih =>
    intro acc
    rw [List.foldl_cons]
    refine (ih (processRequirement env p acc x)).trans ?_
    have heq : (assocAllReqs acc.1 ++ [mkReq env p x]) ++ xs.map (mkReq env p)
        = assocAllReqs acc.1 ++ (x :: xs).map (mkReq env p) := by simp
    exact heq ▸ ((assocAllReqs_processRequirement env p acc x).append_right _)

/-- One plugin step appends, up to permutation, that plugin's contributed
requirements. -/
lemma assocAllReqs_processPlugin (env : CheckEnv)
    (acc : List (String × Lib) × Bool) (p : String) :
    (assocAllReqs (processPlugin env acc p).1).Perm
      (assocAllReqs acc.1 ++ specPluginReqs env p) := by
  unfold processPlugin specPluginReqs
  cases h : env.reqFiles p
  · simp
  · simpa [h] using assocAllReqs_foldl_processRequirement env p _ acc

/-- The plugin loop appends, up to permutation, all plugins' contributed
requirements. -/
lemma assocAllReqs_foldl_processPlugin (env : CheckEnv) (names : List String) :
    ∀ acc, (assocAllReqs (names.foldl (processPlugin env) acc).1).Perm
      (assocAllReqs acc.1 ++ specAllReqs env names) := by
  induction names with
  | nil => intro acc; simp [specAllReqs]
  | cons p rest ih =>
    intro acc
    rw [List.foldl_cons]
    refine (ih (processPlugin env acc p)).trans ?_
    have heq : (assocAllReqs acc.1 ++ specPluginReqs env p) ++ specAllReqs env rest
        = assocAllReqs acc.1 ++ specAllReqs env (p :: rest) := by
      simp [specAllReqs, List.append_assoc]
    exact heq ▸ ((assocAllReqs_processPlugin env acc p).append_right _)

/-- A dictionary whose entries all record no requirements flattens to the
empty requirement list. -/
lemma assocAllReqs_eq_nil (libs : List (String × Lib))
    (h : ∀ kl ∈ libs, kl.2.required_by = ([] : List Req)) :
    assocAllReqs libs = [] := by
  induction libs with
  | nil => rfl
  | cons kl rest ih =>
    rw [assocAllReqs, h kl (by simp), List.nil_append]
    exact ih fun kl' hkl' => h kl' (List.mem_cons_of_mem _ hkl')

/-- Flattening the dialog's library list equals flattening the dictionary. -/
lemma allReqsOf_map_snd (libs : List (String × Lib)) :
    allReqsOf (libs.map Prod.snd) = assocAllReqs libs := by
  induction libs with
  | nil => rfl
  | cons kl rest ih => simp [allReqsOf, assocAllReqs, ih]

/-- All requirements recorded by `check_deps` are, up to permutation, exactly
the requirement lines contributed by the checked plugin names. -/
lemma check_deps_allReqs (env : CheckEnv) (additionalPlugins : List String) :
    (allReqsOf (check_deps env additionalPlugins).1).Perm
      (specAllReqs env (env.activePlugins ++ additionalPlugins)) := by
  unfold check_deps
  rw [allReqsOf_map_snd]
  have h := assocAllReqs_foldl_processPlugin env
    (env.activePlugins ++ additionalPlugins)
    (env.dists.foldl (registerDist env.sitePackagesPath) [], false)
  rwa [assocAllReqs_eq_nil _
    (required_by_foldl_registerDist env.sitePackagesPath env.dists [] (by simp)),
    List.nil_append] at h

/-- A plugin name other than `p` contributes nothing to `p`'s filtered
requirements. -/
lemma filter_specPluginReqs_ne (env : CheckEnv) (q p : String) (hne : q ≠ p) :
    (specPluginReqs env q).filter (fun r => r.plugin == p) = [] := by
  unfold specPluginReqs
  induction ((env.reqFiles q).getD []) with
  | nil => rfl
  | cons x xs ih =>
    simp only [List.map_cons, List.filter_cons]
    have : ((mkReq env q x).plugin == p) = false := by
      simp [mkReq, hne]
    rw [this]
    exact ih

/-- When plugin `p` has no `requirements.txt`, no checked name contributes a
requirement for `p`. -/
lemma specReqsOfPlugin_eq_nil (env : CheckEnv) (p : String)
    (hp : env.reqFiles p = none) :
    ∀ names, specReqsOfPlugin env names p = [] := by
  intro names
  unfold specReqsOfPlugin
  induction names with
  | nil => rfl
  | cons q rest ih =>
    rw [specAllReqs, List.filter_append, ih]
    by_cases he : q = p
    · subst he
      simp [specPluginReqs, hp]
    · rw [filter_specPluginReqs_ne env q p he]
      rfl

/-- Claim C7: a checked plugin's recorded requirements are exactly (up to
order within the library table) the lines of its `requirements.txt`; a
plugin without that file gets no requirements recorded and never raises the
`needs_gui` flag by itself. -/
theorem C7_requirements_from_manifest (env : CheckEnv)
    (additionalPlugins : List String) (p : String) :
    (reqsOfPlugin p (check_deps env additionalPlugins).1).Perm
      (specReqsOfPlugin env (env.activePlugins ++ additionalPlugins) p) ∧
    (env.reqFiles p = none →
      reqsOfPlugin p (check_deps env additionalPlugins).1 = [] ∧
      ∀ additional1 additional2 : List String,
        (check_deps env (additional1 ++ p :: additional2)).2 =
          (check_deps env (additional1 ++ additional2)).2) := by
  have hperm : (reqsOfPlugin p (check_deps env additionalPlugins).1).Perm
      (specReqsOfPlugin env (env.activePlugins ++ additionalPlugins) p) :=
    (check_deps_allReqs env additionalPlugins).filter _
  refine ⟨hperm, fun hp => ⟨?_, ?_⟩⟩
  · exact List.perm_nil.mp
      (by rwa [specReqsOfPlugin_eq_nil env p hp] at hperm)
  · intro additional1 additional2
    have hpf : pluginFails env p = false := by simp [pluginFails, hp]
    rw [check_deps_snd, check_deps_snd]
    simp [List.any_append, hpf]

/-- Witness for C7 in the environment without any manifest file. -/
theorem C7_requirements_from_manifest_witness :
    (reqsOfPlugin "x" (check_deps sampleCheckEnvNoFiles []).1).Perm
      (specReqsOfPlugin sampleCheckEnvNoFiles
        (sampleCheckEnvNoFiles.activePlugins ++ []) "x") ∧
    reqsOfPlugin "x" (check_deps sampleCheckEnvNoFiles []).1 = [] ∧
    (check_deps sampleCheckEnvNoFiles ([] ++ "x" :: [])).2 =
      (check_deps sampleCheckEnvNoFiles ([] ++ [])).2 :=
  ⟨(C7_requirements_from_manifest sampleCheckEnvNoFiles [] "x").1,
   ((C7_requirements_from_manifest sampleCheckEnvNoFiles [] "x").2 rfl).1,
   ((C7_requirements_from_manifest sampleCheckEnvNoFiles [] "x").2 rfl).2 [] []⟩

end QPIP
